import Mathlib

/-!
Shallow embedding of `src/dashboard/src-tauri/src/lib.rs`, the backend
supervisor of the Claude Orchestrator dashboard: it spawns a sidecar server
process, scans its output for readiness markers, polls a health endpoint,
and exposes query commands plus readiness events.
-/

namespace Supervisor

/-- Embeds `const BACKEND_PORT: u16 = 8765;`. -/
def BACKEND_PORT : Nat := 8765

/-- Embeds `get_backend_url`: `format!("http://localhost:{}", BACKEND_PORT)`. -/
def get_backend_url : String := "http://localhost:" ++ toString BACKEND_PORT

/-- Embeds `get_ws_url`: `format!("ws://localhost:{}", BACKEND_PORT)`. -/
def get_ws_url : String := "ws://localhost:" ++ toString BACKEND_PORT

/-- Embeds `is_backend_ready`: `BACKEND_READY.load(Ordering::SeqCst)`.
The atomic flag is passed explicitly as the current state. -/
def is_backend_ready (backendReady : Bool) : Bool := backendReady

/-- Embeds `static BACKEND_READY: AtomicBool = AtomicBool::new(false);`. -/
def BACKEND_READY_initial : Bool := false

/-- Embeds the health URL built in `wait_for_backend_ready`:
`format!("http://localhost:{}/health", BACKEND_PORT)`. -/
def health_url : String := "http://localhost:" ++ toString BACKEND_PORT ++ "/health"

/-- Embeds the argument list passed to the sidecar:
`.args(["--port", &BACKEND_PORT.to_string()])`. -/
def sidecarArgs : List String := ["--port", toString BACKEND_PORT]

/-- Outcome of one `client.get(health_url).send().await` call:
either a response whose `status().is_success()` is the given Bool,
or a request error (connection failure / timeout). -/
inductive HealthResult where
  | ok (isSuccess : Bool)
  | err
deriving DecidableEq

/-- Whether the attempt took the `Ok(response) if response.status().is_success()`
arm of the match in `wait_for_backend_ready`. -/
def HealthResult.success : HealthResult → Bool
  | .ok b => b
  | .err => false

/-- Embeds the `for attempt in 1..=30` loop body of `wait_for_backend_ready`:
`attempt` is the current 1-based attempt number, the fuel is the number of
loop iterations left.  Returns the boolean result together with the number
of health requests issued.  A success returns `true` immediately; the other
two arms only print, then the loop sleeps 500ms and continues. -/
def waitLoop (resp : Nat → HealthResult) (attempt : Nat) : Nat → Bool × Nat
  | 0 => (false, 0)
  | fuel + 1 =>
    if (resp attempt).success then (true, 1)
    else
      let r := waitLoop resp (attempt + 1) fuel
      (r.1, r.2 + 1)

/-- Embeds `wait_for_backend_ready`: 30 attempts starting at attempt 1;
`resp k` is what the endpoint returns on attempt `k`. -/
def wait_for_backend_ready (resp : Nat → HealthResult) : Bool :=
  (waitLoop resp 1 30).1

/-- The number of health requests `wait_for_backend_ready` issues. -/
def waitAttempts (resp : Nat → HealthResult) : Nat :=
  (waitLoop resp 1 30).2

/-- Start time (ms) of 0-based attempt `i` in `wait_for_backend_ready`:
attempt `i+1` starts after attempt `i` finished (its request took `dur i` ms,
bounded by the 2s timeout, irrelevant here) and after the 500ms
`tokio::time::sleep`. -/
def attemptStart (dur : Nat → Nat) : Nat → Nat
  | 0 => 0
  | i + 1 => attemptStart dur i + dur i + 500

/-- Character-list prefix test, used to embed Rust `str::contains`. -/
def seqPre : List Char → List Char → Bool
  | [], _ => true
  | _ :: _, [] => false
  | p :: ps, c :: cs => (p = c) && seqPre ps cs

/-- Character-list substring test, used to embed Rust `str::contains`. -/
def containsSeq (pat : List Char) : List Char → Bool
  | [] => pat.isEmpty
  | c :: cs => seqPre pat (c :: cs) || containsSeq pat cs

/-- Embeds Rust `line_str.contains(pat)`: substring containment. -/
def strContainsSub (s pat : String) : Bool := containsSeq pat.data s.data

/-- Embeds the marker test in `spawn_backend`:
`line_str.contains("Uvicorn running") || line_str.contains("Application startup complete")`. -/
def readyMarker (line : String) : Bool :=
  strContainsSub line "Uvicorn running" || strContainsSub line "Application startup complete"

/-- Embeds `tauri_plugin_shell::process::CommandEvent` as consumed by the
monitor loop in `spawn_backend`.  `other` stands for the `_ => {}` arm. -/
inductive CommandEvent where
  | stdout (line : String)
  | stderr (line : String)
  | error (msg : String)
  | terminated (code : Option Int)
  | other
deriving DecidableEq

/-- An event emitted to the frontend via `app_handle.emit`. -/
inductive Emitted where
  | backendReady
  | backendTerminated (code : Option Int)
  | backendFailed
deriving DecidableEq

/-- State observable from the monitor task: the `BACKEND_READY` flag and the
log of events emitted so far. -/
structure MonitorState where
  backendReady : Bool
  emitted : List Emitted
deriving DecidableEq

/-- Embeds one iteration of the `while let Some(event) = rx.recv().await`
loop in `spawn_backend`.  Returns the new state and whether the loop
`break`s (only the `Terminated` arm breaks). -/
def monitorStep (s : MonitorState) : CommandEvent → MonitorState × Bool
  | .stdout line =>
    if readyMarker line then
      ({ backendReady := true, emitted := s.emitted ++ [.backendReady] }, false)
    else (s, false)
  | .stderr line =>
    if readyMarker line then
      ({ backendReady := true, emitted := s.emitted ++ [.backendReady] }, false)
    else (s, false)
  | .error _ => (s, false)
  | .terminated code =>
    ({ backendReady := false, emitted := s.emitted ++ [.backendTerminated code] }, true)
  | .other => (s, false)

/-- Embeds the whole monitor loop of `spawn_backend` over the finite stream
of events the child produces; stops early when a step breaks. -/
def monitorRun (s : MonitorState) : List CommandEvent → MonitorState
  | [] => s
  | e :: es =>
    let r := monitorStep s e
    if r.2 then r.1 else monitorRun r.1 es

/-- Events emitted by the health-poll task spawned in `run`s setup hook:
on `wait_for_backend_ready() == true` it stores `true` and emits
`"backend-ready"`, otherwise it emits `"backend-failed"`. -/
def pollerEmit (resp : Nat → HealthResult) : List Emitted :=
  if wait_for_backend_ready resp then [.backendReady] else [.backendFailed]

/-- Effect of the health-poll task on the `BACKEND_READY` flag: stores `true`
on success, leaves the flag untouched otherwise. -/
def pollerStatus (resp : Nat → HealthResult) (backendReady : Bool) : Bool :=
  if wait_for_backend_ready resp then true else backendReady

/-- True on the `Except.error` constructor (a failed Rust `Result`). -/
def exceptFailed : Except String Unit → Bool
  | .error _ => true
  | .ok _ => false

/-- Embeds `spawn_backend` up to the spawning of the monitor task:
`sidecarResult` is the outcome of `shell.sidecar("dashboard-api")`,
`spawnResult` the outcome of `.spawn()`.  Returns the functions `Result`
together with how many spawn attempts were made. -/
def spawn_backend (sidecarResult spawnResult : Except String Unit) :
    Except String Unit × Nat :=
  match sidecarResult with
  | .error e => (.error ("Failed to create sidecar: " ++ e), 0)
  | .ok _ =>
    match spawnResult with
    | .error e => (.error ("Failed to spawn sidecar: " ++ e), 1)
    | .ok _ => (.ok (), 1)

/-- Embeds the `setup` closure in `run`: it matches on `spawn_backend`,
logs either way, spawns the poller task, and returns `Ok(())` in both
branches. -/
def setup (sidecarResult spawnResult : Except String Unit) : Except String Unit :=
  match (spawn_backend sidecarResult spawnResult).1 with
  | .ok _ => .ok ()
  | .error _ => .ok ()

/-- All frontend events of a run: the monitor tasks emissions followed by
the poller tasks emission (order between the two tasks does not matter for
counting). -/
def systemEmitted (events : List CommandEvent) (resp : Nat → HealthResult) :
    List Emitted :=
  (monitorRun { backendReady := BACKEND_READY_initial, emitted := [] } events).emitted
    ++ pollerEmit resp

/-- Final monitor state of a run whose child output is `pre`, then an exit
with `code`, then (unread) `rest`. -/
def runWithExit (pre : List CommandEvent) (code : Option Int)
    (rest : List CommandEvent) : MonitorState :=
  monitorRun { backendReady := BACKEND_READY_initial, emitted := [] }
    (pre ++ CommandEvent.terminated code :: rest)

/-- Whether an event is the `Terminated` variant. -/
def isTerminatedEvent : CommandEvent → Bool
  | .terminated _ => true
  | _ => false

/-- Number of `backend-terminated` emissions in a log. -/
def countTerm : List Emitted → Nat
  | [] => 0
  | Emitted.backendTerminated _ :: rest => countTerm rest + 1
  | _ :: rest => countTerm rest

/-- Number of `backend-ready` emissions in a log. -/
def countReady : List Emitted → Nat
  | [] => 0
  | Emitted.backendReady :: rest => countReady rest + 1
  | _ :: rest => countReady rest

/-! Helper lemmas about the poll loop. -/

theorem waitLoop_all_fail (resp : Nat → HealthResult)
    (h : ∀ k, (resp k).success = false) :
    ∀ fuel a, waitLoop resp a fuel = (false, fuel) := by
  intro fuel
  induction fuel with
  | zero => intro a; rfl
  | succ n ih =>
    intro a
    simp [waitLoop, h a, ih (a + 1)]

theorem waitLoop_attempts_le (resp : Nat → HealthResult) :
    ∀ fuel a, (waitLoop resp a fuel).2 ≤ fuel := by
  intro fuel
  induction fuel with
  | zero => intro a; simp [waitLoop]
  | succ n ih =>
    intro a
    by_cases hs : (resp a).success = true
    · simp [waitLoop, hs]
    · simp only [waitLoop, hs, if_false, Bool.false_eq_true]
      exact Nat.succ_le_succ (ih (a + 1))

theorem waitLoop_true_iff (resp : Nat → HealthResult) :
    ∀ fuel a, (waitLoop resp a fuel).1 = true ↔
      ∃ k, a ≤ k ∧ k < a + fuel ∧ (resp k).success = true := by
  intro fuel
  induction fuel with
  | zero =>
    intro a
    simp only [waitLoop]
    constructor
    · intro h; exact absurd h (by simp)
    · rintro ⟨k, h1, h2, h3⟩; omega
  | succ n ih =>
    intro a
    by_cases hs : (resp a).success = true
    · simp only [waitLoop, hs, if_true]
      constructor
      · intro _; exact ⟨a, Nat.le_refl a, by omega, hs⟩
      · intro _; trivial
    · have hunf : waitLoop resp a (n + 1)
          = ((waitLoop resp (a + 1) n).1, (waitLoop resp (a + 1) n).2 + 1) := by
        simp [waitLoop, hs]
      rw [hunf]
      constructor
      · intro h
        obtain ⟨k, hk1, hk2, hk3⟩ := (ih (a + 1)).mp h
        exact ⟨k, by omega, by omega, hk3⟩
      · rintro ⟨k, hk1, hk2, hk3⟩
        apply (ih (a + 1)).mpr
        rcases Nat.eq_or_lt_of_le hk1 with rfl | hlt
        · exact absurd hk3 hs
        · exact ⟨k, by omega, by omega, hk3⟩

theorem waitLoop_first_success (resp : Nat → HealthResult) :
    ∀ fuel a k, a ≤ k → k < a + fuel → (resp k).success = true →
      (∀ j, a ≤ j → j < k → (resp j).success = false) →
      waitLoop resp a fuel = (true, k - a + 1) := by
  intro fuel
  induction fuel with
  | zero => intro a k h1 h2 _ _; omega
  | succ n ih =>
    intro a k h1 h2 hk hmin
    rcases Nat.eq_or_lt_of_le h1 with rfl | hlt
    · simp [waitLoop, hk]
    · have ha : (resp a).success = false := hmin a (Nat.le_refl a) hlt
      have hrec : waitLoop resp (a + 1) n = (true, k - (a + 1) + 1) :=
        ih (a + 1) k (by omega) (by omega) hk (fun j hj1 hj2 => hmin j (by omega) hj2)
      simp only [waitLoop, ha, Bool.false_eq_true, if_false, hrec]
      refine Prod.ext rfl ?_
      simp only
      omega

/-! Helper lemmas about the monitor loop. -/

theorem monitorStep_no_break (s : MonitorState) (e : CommandEvent)
    (h : isTerminatedEvent e = false) : (monitorStep s e).2 = false := by
  cases e with
  | stdout line => simp only [monitorStep]; split <;> rfl
  | stderr line => simp only [monitorStep]; split <;> rfl
  | error m => rfl
  | terminated c => simp [isTerminatedEvent] at h
  | other => rfl

theorem countTerm_append (l1 l2 : List Emitted) :
    countTerm (l1 ++ l2) = countTerm l1 + countTerm l2 := by
  induction l1 with
  | nil => simp [countTerm]
  | cons a t ih => cases a <;> simp [countTerm, ih] <;> omega

theorem countReady_append (l1 l2 : List Emitted) :
    countReady (l1 ++ l2) = countReady l1 + countReady l2 := by
  induction l1 with
  | nil => simp [countReady]
  | cons a t ih => cases a <;> simp [countReady, ih] <;> omega

theorem monitorStep_countTerm (s : MonitorState) (e : CommandEvent)
    (h : isTerminatedEvent e = false) :
    countTerm (monitorStep s e).1.emitted = countTerm s.emitted := by
  cases e with
  | stdout line =>
    simp only [monitorStep]; split
    · simp [countTerm_append, countTerm]
    · rfl
  | stderr line =>
    simp only [monitorStep]; split
    · simp [countTerm_append, countTerm]
    · rfl
  | error m => rfl
  | terminated c => simp [isTerminatedEvent] at h
  | other => rfl

theorem monitorRun_to_terminated (pre : List CommandEvent) :
    ∀ (s : MonitorState) (code : Option Int) (rest : List CommandEvent),
    (∀ e ∈ pre, isTerminatedEvent e = false) →
    monitorRun s (pre ++ CommandEvent.terminated code :: rest) =
      { backendReady := false,
        emitted := (monitorRun s pre).emitted ++ [Emitted.backendTerminated code] } := by
  induction pre with
  | nil =>
    intro s code rest _
    simp [monitorRun, monitorStep]
  | cons e pre ih =>
    intro s code rest hpre
    have he : isTerminatedEvent e = false := hpre e (List.mem_cons_self e pre)
    have hb := monitorStep_no_break s e he
    have hpre2 : ∀ x ∈ pre, isTerminatedEvent x = false :=
      fun x hx => hpre x (List.mem_cons_of_mem e hx)
    simp only [List.cons_append, monitorRun, hb, if_false, Bool.false_eq_true]
    exact ih (monitorStep s e).1 code rest hpre2

theorem monitorRun_countTerm (pre : List CommandEvent) :
    ∀ s : MonitorState, (∀ e ∈ pre, isTerminatedEvent e = false) →
    countTerm (monitorRun s pre).emitted = countTerm s.emitted := by
  induction pre with
  | nil => intro s _; rfl
  | cons e pre ih =>
    intro s hpre
    have he : isTerminatedEvent e = false := hpre e (List.mem_cons_self e pre)
    have hb := monitorStep_no_break s e he
    simp only [monitorRun, hb, if_false, Bool.false_eq_true]
    rw [ih (monitorStep s e).1 (fun x hx => hpre x (List.mem_cons_of_mem e hx))]
    exact monitorStep_countTerm s e he

/-- A health endpoint that always yields a request error, never a success. -/
def respNever : Nat → HealthResult := fun _ => HealthResult.err

/-- A health endpoint that fails on attempts 1 and 2 and succeeds on attempt 3. -/
def respThird : Nat → HealthResult :=
  fun i => if i = 3 then HealthResult.ok true else HealthResult.err

/-- A health endpoint that succeeds immediately. -/
def respAlways : Nat → HealthResult := fun _ => HealthResult.ok true

/-- Request durations that are all zero (shortest possible attempts). -/
def durConst : Nat → Nat := fun _ => 0

/-- C8: the backend status is initialized to NotReady at process start, so
`is_backend_ready` returns `false` before any readiness signal. -/
theorem initial_status_not_ready :
    BACKEND_READY_initial = false ∧
    is_backend_ready BACKEND_READY_initial = false :=
  ⟨rfl, rfl⟩

/-- C6: the three query entry points are total functions: `get_backend_url`
is always `"http://localhost:8765"`, `get_ws_url` is always
`"ws://localhost:8765"`, the same port 8765 appears in the sidecar argument
list and in the polled health URL, and `is_backend_ready` returns the current
status boolean. -/
theorem query_entry_points :
    get_backend_url = "http://localhost:8765" ∧
    get_ws_url = "ws://localhost:8765" ∧
    sidecarArgs = ["--port", "8765"] ∧
    health_url = "http://localhost:8765/health" ∧
    ∀ b : Bool, is_backend_ready b = b := by
  refine ⟨by decide, by decide, by decide, by decide, fun b => rfl⟩

/-- C9: the health-poll function always terminates: for every sequence of
endpoint responses it issues at most 30 requests and returns a boolean that
is `true` exactly when some attempt `k ≤ 30` succeeds. -/
theorem wait_always_terminates (resp : Nat → HealthResult) :
    waitAttempts resp ≤ 30 ∧
    (wait_for_backend_ready resp = true ↔
      ∃ k, 1 ≤ k ∧ k ≤ 30 ∧ (resp k).success = true) := by
  constructor
  · exact waitLoop_attempts_le resp 30 1
  · rw [wait_for_backend_ready, waitLoop_true_iff resp 30 1]
    constructor
    · rintro ⟨k, h1, h2, h3⟩; exact ⟨k, by omega, by omega, h3⟩
    · rintro ⟨k, h1, h2, h3⟩; exact ⟨k, by omega, by omega, h3⟩

/-- C1: when the health endpoint never returns a success status, the poller
makes exactly 30 attempts, consecutive attempts start at least 500ms apart,
the poller task emits exactly the `"backend-failed"` event, and it never
stores Ready: the flag stays `false` and the poller leaves any status value
unchanged, so no transition to Ready comes from this path. -/
theorem poll_exhaustion (resp : Nat → HealthResult) (dur : Nat → Nat)
    (h : ∀ k, (resp k).success = false) :
    waitAttempts resp = 30 ∧
    wait_for_backend_ready resp = false ∧
    pollerEmit resp = [Emitted.backendFailed] ∧
    pollerStatus resp BACKEND_READY_initial = false ∧
    (∀ b : Bool, pollerStatus resp b = b) ∧
    (∀ i : Nat, attemptStart dur i + 500 ≤ attemptStart dur (i + 1)) := by
  have hw := waitLoop_all_fail resp h 30 1
  have hfalse : wait_for_backend_ready resp = false := by
    rw [wait_for_backend_ready, hw]
  refine ⟨?_, hfalse, ?_, ?_, ?_, ?_⟩
  · rw [waitAttempts, hw]
  · simp [pollerEmit, hfalse]
  · simp [pollerStatus, hfalse, BACKEND_READY_initial]
  · intro b; simp [pollerStatus, hfalse]
  · intro i
    show attemptStart dur i + 500 ≤ attemptStart dur i + dur i + 500
    omega

/-- Witness for C1 at the endpoint that always errors. -/
theorem poll_exhaustion_witness :
    waitAttempts respNever = 30 ∧
    pollerEmit respNever = [Emitted.backendFailed] ∧
    pollerStatus respNever true = true ∧
    attemptStart durConst 0 + 500 ≤ attemptStart durConst 1 :=
  ⟨(poll_exhaustion respNever durConst (fun _ => rfl)).1,
   (poll_exhaustion respNever durConst (fun _ => rfl)).2.2.1,
   (poll_exhaustion respNever durConst (fun _ => rfl)).2.2.2.2.1 true,
   (poll_exhaustion respNever durConst (fun _ => rfl)).2.2.2.2.2 0⟩

/-- C2: when the health endpoint first succeeds on attempt `k ≤ 30`, the
poller returns `true`, issues exactly `k` requests (so no attempt `k+1`),
and the status becomes Ready whatever it was before. -/
theorem poll_success_stops (resp : Nat → HealthResult) (k : Nat)
    (h1 : 1 ≤ k) (h2 : k ≤ 30) (hk : (resp k).success = true)
    (hmin : ∀ j, j < k → 1 ≤ j → (resp j).success = false) :
    wait_for_backend_ready resp = true ∧
    waitAttempts resp = k ∧
    (∀ b : Bool, is_backend_ready (pollerStatus resp b) = true) := by
  have hw : waitLoop resp 1 30 = (true, k - 1 + 1) :=
    waitLoop_first_success resp 30 1 k h1 (by omega) hk
      (fun j hj1 hj2 => hmin j hj2 hj1)
  have htrue : wait_for_backend_ready resp = true := by
    rw [wait_for_backend_ready, hw]
  refine ⟨htrue, ?_, ?_⟩
  · rw [waitAttempts, hw]; simp only; omega
  · intro b; simp [pollerStatus, htrue, is_backend_ready]

/-- Witness for C2 at an endpoint that first succeeds on attempt 3. -/
theorem poll_success_stops_witness :
    wait_for_backend_ready respThird = true ∧
    waitAttempts respThird = 3 ∧
    (∀ b : Bool, is_backend_ready (pollerStatus respThird b) = true) :=
  poll_success_stops respThird 3 (by decide) (by decide) (by decide) (by decide)

/-- A concrete stdout line carrying the first readiness marker. -/
def markerLine : String := "INFO:     Uvicorn running on other"

/-- C3: every stdout or stderr line containing one of the two fixed marker
substrings makes the monitor set the status to Ready and emit a
`"backend-ready"` event; a line containing neither marker leaves the state
completely unchanged. -/
theorem output_marker_scanning (s : MonitorState) (line : String)
    (e : CommandEvent)
    (he : e = CommandEvent.stdout line ∨ e = CommandEvent.stderr line) :
    ((strContainsSub line "Uvicorn running" = true ∨
        strContainsSub line "Application startup complete" = true) →
      (monitorStep s e).1.backendReady = true ∧
      (monitorStep s e).1.emitted = s.emitted ++ [Emitted.backendReady]) ∧
    ((strContainsSub line "Uvicorn running" = false ∧
        strContainsSub line "Application startup complete" = false) →
      monitorStep s e = (s, false)) := by
  constructor
  · intro h
    have hm : readyMarker line = true := by
      rcases h with h | h <;> simp [readyMarker, h]
    rcases he with rfl | rfl <;> simp [monitorStep, hm]
  · intro h
    have hm : readyMarker line = false := by
      simp [readyMarker, h.1, h.2]
    rcases he with rfl | rfl <;> simp [monitorStep, hm]

/-- Witness for C3 at a concrete uvicorn startup line on stdout. -/
theorem output_marker_scanning_witness :
    (monitorStep { backendReady := false, emitted := [] }
        (CommandEvent.stdout markerLine)).1.backendReady = true ∧
    (monitorStep { backendReady := false, emitted := [] }
        (CommandEvent.stdout markerLine)).1.emitted
      = [] ++ [Emitted.backendReady] :=
  (output_marker_scanning { backendReady := false, emitted := [] } markerLine
      (CommandEvent.stdout markerLine) (Or.inl rfl)).1 (Or.inl (by decide))

/-- C4: when a `Terminated(code)` event arrives after terminator-free output,
the status flag becomes `false` (so every later `is_backend_ready` query
answers NotReady), a `"backend-terminated"` event carrying the exit code is
emitted exactly once, and the monitor loop stops: events after the exit are
never processed. -/
theorem child_exit_terminates (pre : List CommandEvent) (code : Option Int)
    (rest : List CommandEvent)
    (hpre : ∀ e ∈ pre, isTerminatedEvent e = false) :
    is_backend_ready (runWithExit pre code rest).backendReady = false ∧
    countTerm (runWithExit pre code rest).emitted = 1 ∧
    Emitted.backendTerminated code ∈ (runWithExit pre code rest).emitted ∧
    runWithExit pre code rest = runWithExit pre code [] := by
  have hrun := monitorRun_to_terminated pre
    { backendReady := BACKEND_READY_initial, emitted := [] } code rest hpre
  have hrun0 := monitorRun_to_terminated pre
    { backendReady := BACKEND_READY_initial, emitted := [] } code [] hpre
  have hcount := monitorRun_countTerm pre
    { backendReady := BACKEND_READY_initial, emitted := [] } hpre
  refine ⟨?_, ?_, ?_, ?_⟩
  · rw [runWithExit, hrun]; rfl
  · rw [runWithExit, hrun]
    simp only [countTerm_append]
    rw [hcount]
    rfl
  · rw [runWithExit, hrun]
    simp
  · rw [runWithExit, hrun, runWithExit, hrun0]

/-- Witness for C4: one plain output line, exit code 1, one unread event. -/
theorem child_exit_terminates_witness :
    is_backend_ready
        (runWithExit [CommandEvent.stdout "hello"] (some 1)
          [CommandEvent.other]).backendReady = false ∧
    countTerm (runWithExit [CommandEvent.stdout "hello"] (some 1)
        [CommandEvent.other]).emitted = 1 ∧
    Emitted.backendTerminated (some 1)
        ∈ (runWithExit [CommandEvent.stdout "hello"] (some 1)
          [CommandEvent.other]).emitted ∧
    runWithExit [CommandEvent.stdout "hello"] (some 1) [CommandEvent.other]
      = runWithExit [CommandEvent.stdout "hello"] (some 1) [] :=
  child_exit_terminates [CommandEvent.stdout "hello"] (some 1)
    [CommandEvent.other] (by decide)

/-- C5: readiness signalling is idempotent on the status: when the status is
already Ready, a further marker line on stdout or stderr and a successful
health poll all leave the answer of `is_backend_ready` unchanged. -/
theorem ready_signal_idempotent (s : MonitorState) (line : String)
    (h : is_backend_ready s.backendReady = true)
    (hline : readyMarker line = true) (resp : Nat → HealthResult) :
    is_backend_ready (monitorStep s (CommandEvent.stdout line)).1.backendReady
      = is_backend_ready s.backendReady ∧
    is_backend_ready (monitorStep s (CommandEvent.stderr line)).1.backendReady
      = is_backend_ready s.backendReady ∧
    is_backend_ready (pollerStatus resp s.backendReady)
      = is_backend_ready s.backendReady := by
  simp only [is_backend_ready] at h
  refine ⟨?_, ?_, ?_⟩
  · simp [monitorStep, hline, is_backend_ready, h]
  · simp [monitorStep, hline, is_backend_ready, h]
  · simp [pollerStatus, is_backend_ready, h]

/-- Witness for C5 at an already-Ready state. -/
theorem ready_signal_idempotent_witness :
    is_backend_ready (monitorStep { backendReady := true, emitted := [Emitted.backendReady] }
        (CommandEvent.stdout "Uvicorn running")).1.backendReady
      = is_backend_ready (true : Bool) ∧
    is_backend_ready (monitorStep { backendReady := true, emitted := [Emitted.backendReady] }
        (CommandEvent.stderr "Uvicorn running")).1.backendReady
      = is_backend_ready (true : Bool) ∧
    is_backend_ready (pollerStatus respAlways true) = is_backend_ready (true : Bool) :=
  ready_signal_idempotent { backendReady := true, emitted := [Emitted.backendReady] }
    "Uvicorn running" (by decide) (by decide) respAlways

/-- C7: when creating or spawning the sidecar command fails, `spawn_backend`
returns an error value instead of panicking, at most one spawn attempt is
made (no respawn), and the setup hook still returns `Ok`. -/
theorem spawn_failure_nonfatal (sc sp : Except String Unit)
    (h : exceptFailed sc = true ∨ exceptFailed sp = true) :
    exceptFailed (spawn_backend sc sp).1 = true ∧
    (spawn_backend sc sp).2 ≤ 1 ∧
    setup sc sp = Except.ok () := by
  cases sc with
  | error e => refine ⟨rfl, by simp [spawn_backend], rfl⟩
  | ok u =>
    cases sp with
    | error e => refine ⟨rfl, by simp [spawn_backend], rfl⟩
    | ok v =>
      rcases h with h | h <;> simp [exceptFailed] at h

/-- Witness for C7 when the sidecar executable cannot be located. -/
theorem spawn_failure_nonfatal_witness :
    exceptFailed (spawn_backend (Except.error "not found") (Except.ok ())).1 = true ∧
    (spawn_backend (Except.error "not found") (Except.ok ())).2 ≤ 1 ∧
    setup (Except.error "not found") (Except.ok ()) = Except.ok () :=
  spawn_failure_nonfatal (Except.error "not found") (Except.ok ())
    (Or.inl (by decide))

/-- C10: readiness events are not deduplicated: a marker line appends a
`"backend-ready"` emission whatever the current state is, a successful poll
emits another, and the run with one marker line plus a poll success carries
two `"backend-ready"` events in total. -/
theorem ready_event_duplicated (s : MonitorState) (line : String)
    (hline : readyMarker line = true) (resp : Nat → HealthResult)
    (hresp : wait_for_backend_ready resp = true) :
    (monitorStep s (CommandEvent.stdout line)).1.emitted
      = s.emitted ++ [Emitted.backendReady] ∧
    (monitorStep s (CommandEvent.stderr line)).1.emitted
      = s.emitted ++ [Emitted.backendReady] ∧
    pollerEmit resp = [Emitted.backendReady] ∧
    countReady (systemEmitted [CommandEvent.stdout line] resp) = 2 := by
  refine ⟨?_, ?_, ?_, ?_⟩
  · simp [monitorStep, hline]
  · simp [monitorStep, hline]
  · simp [pollerEmit, hresp]
  · simp [systemEmitted, monitorRun, monitorStep, hline, pollerEmit, hresp,
      countReady_append, countReady]

/-- Witness for C10 at an already-Ready state with a marker line and an
immediately succeeding endpoint. -/
theorem ready_event_duplicated_witness :
    (monitorStep { backendReady := true, emitted := [] }
        (CommandEvent.stdout "Application startup complete")).1.emitted
      = [] ++ [Emitted.backendReady] ∧
    (monitorStep { backendReady := true, emitted := [] }
        (CommandEvent.stderr "Application startup complete")).1.emitted
      = [] ++ [Emitted.backendReady] ∧
    pollerEmit respAlways = [Emitted.backendReady] ∧
    countReady (systemEmitted [CommandEvent.stdout "Application startup complete"]
        respAlways) = 2 :=
  ready_event_duplicated { backendReady := true, emitted := [] }
    "Application startup complete" (by decide) respAlways (by decide)

end Supervisor
